import Mathlib

/-!
Verification of the paginated retrieval and local caching
pipeline, as a shallow embedding of the Python source.

Embedded code:
* `src/src/api/pagination.py` — `SearchAfterPaginator.paginate` and
  `SearchAfterPaginator._make_request`.
* `src/src/data/database.py` — `EPCDatabase.store_certificates`,
  `get_certificates`, `get_certificate_by_id`, `cleanup_old_data`.

Modelling conventions:
* JSON scalars and small values are the inductive `JVal`; Python truthiness
  is `JVal.truthy` (None/False/0/""/[] are falsy).
* Timestamps are integers on a single timeline measured in hours
  (`timedelta(hours=h)` is `h`, `timedelta(days=d)` is `d * 24`); the
  SQLite TEXT comparison of ISO timestamps is modelled as integer
  comparison on that timeline.
* The HTTP session is modelled by the finite list of outcomes it would
  produce for successive requests; an exhausted list behaves like a
  failed request.
* `time.sleep` calls and log statements are instrumented as explicit
  result components where a claim refers to them.
-/

/-- JSON-ish values appearing in API responses and cached records. -/
inductive JVal where
  | jnull : JVal
  | jbool : Bool → JVal
  | jint : Int → JVal
  | jstr : String → JVal
  | jlist : List JVal → JVal


/-- Python truthiness on `JVal`: `None`, `False`, `0`, `""` and `[]` are
falsy, everything else truthy. -/
def JVal.truthy : JVal → Bool
  | .jnull => false
  | .jbool b => b
  | .jint n => n != 0
  | .jstr s => !s.isEmpty
  | .jlist xs => !xs.isEmpty

/-- Truthiness of an optional value: Python `None` (absence) is falsy. -/
def truthyOpt : Option JVal → Bool
  | none => false
  | some v => v.truthy

/-- A record is an ordered mapping of field name to value (a Python dict). -/
abbrev Record := List (String × JVal)

/-- `dict.get(k)`: the value at the first occurrence of key `k`, if any. -/
def Record.get (r : Record) (k : String) : Option JVal :=
  (r.find? (fun p => p.1 = k)).map (fun p => p.2)

namespace Pagination

/-- Configuration constants from `backend/config/settings.py`. -/
def RETRY_ATTEMPTS : Nat := 3

/-- `Config.RETRY_DELAY` (seconds). -/
def RETRY_DELAY : Nat := 1

/-- `Config.PAGE_SIZE`. -/
def PAGE_SIZE : Nat := 5000

/-- The decoded JSON body of a search response, with the fields the
paginator inspects: an optional `data` array, optional `column-names`,
optional `rows`, and the optional `next-search-after` token. -/
structure ApiResponse where
  data? : Option (List Record)
  columnNames? : Option (List String)
  rows? : Option (List (List JVal))
  nextSearchAfter? : Option JVal


/-- Response normalization, `pagination.py` lines 35-44: if a `data` field
is present its array is used; otherwise, if both `rows` and `column-names`
are present, each row becomes one mapping by zipping column names to row
values in order (`dict(zip(columns, row))`); otherwise the batch is empty. -/
def normalizeResponse (r : ApiResponse) : List Record :=
  match r.data? with
  | some d => d
  | none =>
    match r.rows?, r.columnNames? with
    | some rows, some columns => rows.map (fun row => List.zip columns row)
    | _, _ => []

/-- One yielded page, `pagination.py` lines 55-60. -/
structure Page where
  data : List Record
  page : Nat
  page_size : Nat
  total_retrieved : Nat


/-- The `search-after` parameter included in one request:
`if search_after: page_params[search_after_key] = search_after`
(lines 23-24) — the token is sent only when truthy, otherwise the
parameter is omitted (`none`). -/
def sentToken : Option JVal → Option JVal
  | none => none
  | some t => if t.truthy then some t else none

/-- `if not search_after: break` (line 63): pagination continues only when
the `next-search-after` value is present and truthy. -/
def saTruthy : Option JVal → Bool
  | none => false
  | some v => v.truthy

/-- The paginate loop, `pagination.py` lines 20-71, over the finite list of
outcomes the fetcher will produce (`none` = `_make_request` returned no
response). Returns the yielded pages and, for each request issued, the
`search-after` token it carried (`none` when the parameter was omitted).
Each cycle: issue the request; stop on a missing response; normalize;
stop before yielding when the batch is empty; yield the page; stop after
yielding when the continuation token is absent or falsy. An exhausted
outcome list stands for a fetcher that stops answering and behaves like a
failed request. -/
def paginateGo : List (Option ApiResponse) → Option JVal → Nat → Nat →
    List Page × List (Option JVal)
  | outcomes, searchAfter, pageCount, total =>
    let tok := sentToken searchAfter
    match outcomes with
    | [] => ([], [tok])
    | none :: _ => ([], [tok])
    | some resp :: rest =>
      let data := normalizeResponse resp
      if data.isEmpty then ([], [tok])
      else
        let page : Page :=
          { data := data
            page := pageCount + 1
            page_size := data.length
            total_retrieved := total + data.length }
        let searchAfter2 := resp.nextSearchAfter?
        if saTruthy searchAfter2 then
          let next := paginateGo rest searchAfter2 (pageCount + 1) (total + data.length)
          (page :: next.1, tok :: next.2)
        else
          ([page], [tok])

/-- `paginate(endpoint, params)`: a fresh session starts with no cursor,
page count 0 and total 0 (lines 16-18). -/
def paginate (outcomes : List (Option ApiResponse)) : List Page × List (Option JVal) :=
  paginateGo outcomes none 0 0

/-- What the HTTP session yields for one attempt inside `_make_request`:
either a response (with status code, decoded JSON body used on 200, and
text used in diagnostics) or a `requests.RequestException`. -/
inductive AttemptOutcome where
  | response (status_code : Nat) (body : ApiResponse) (text : String)
  | exception (msg : String)


/-- The retry loop of `_make_request`, `pagination.py` lines 76-104, with
`attempt` the 0-based loop index of `for attempt in range(RETRY_ATTEMPTS)`.
Returns the result handed to the caller, the list of back-off sleeps
performed (in units of seconds), and the `API error status: text`
diagnostics logged. On 200 the decoded body is returned; on 429 the loop
sleeps `(attempt + 1) * RETRY_DELAY` and retries; on any other status it
logs the status and body text and returns no response at once; on a
network exception it sleeps and retries unless this was the last attempt.
Falling off the loop returns no response (line 104). -/
def make_request_loop : List AttemptOutcome → Nat →
    Option ApiResponse × List Nat × List (Nat × String)
  | outcomes, attempt =>
    if attempt < RETRY_ATTEMPTS then
      match outcomes with
      | [] => (none, [], [])
      | o :: rest =>
        match o with
        | .response status_code body text =>
          if status_code = 200 then
            (some body, [], [])
          else if status_code = 429 then
            let wait_time := (attempt + 1) * RETRY_DELAY
            let next := make_request_loop rest (attempt + 1)
            (next.1, wait_time :: next.2.1, next.2.2)
          else
            (none, [], [(status_code, text)])
        | .exception _ =>
          if attempt < RETRY_ATTEMPTS - 1 then
            let wait_time := (attempt + 1) * RETRY_DELAY
            let next := make_request_loop rest (attempt + 1)
            (next.1, wait_time :: next.2.1, next.2.2)
          else
            (none, [], [])
    else
      (none, [], [])

/-- `_make_request(endpoint, params)` over the attempt outcomes of the session. -/
def make_request (outcomes : List AttemptOutcome) :
    Option ApiResponse × List Nat × List (Nat × String) :=
  make_request_loop outcomes 0

end Pagination

namespace Database

mutual

/-- Boolean equality on `JVal`, modelling SQL `=` between a value extracted
from a stored JSON payload and a bound parameter. -/
def JVal.beq : JVal → JVal → Bool
  | .jnull, .jnull => true
  | .jbool a, .jbool b => a == b
  | .jint a, .jint b => a == b
  | .jstr a, .jstr b => a == b
  | .jlist xs, .jlist ys => JVal.beqList xs ys
  | _, _ => false

/-- Elementwise `JVal.beq` on lists. -/
def JVal.beqList : List JVal → List JVal → Bool
  | [], [] => true
  | x :: xs, y :: ys => JVal.beq x y && JVal.beqList xs ys
  | _, _ => false

end

/-- The serialized payload held in the `data` column of
`epc_certificates`: either decodable JSON carrying a record (what
`json.dumps` of a dict produces), or undecodable text (on which
`json.loads` raises `JSONDecodeError`). -/
inductive Blob where
  | valid (doc : Record)
  | corrupt (s : String)

/-- `json.loads` on a stored payload: the record for decodable JSON,
failure (a raised `JSONDecodeError`) otherwise. -/
def loads : Blob → Option Record
  | .valid doc => some doc
  | .corrupt _ => none

/-- One row of the DataFrame handed to `store_certificates`.
`serializable` models whether `json.dumps(row.to_dict())` succeeds —
the shallow stand-in for Python values `json` cannot encode. -/
structure InRecord where
  fields : Record
  serializable : Bool

/-- `json.dumps(row.to_dict())`: a decodable payload on success, failure
(a raised exception) when the row holds a non-serializable value. -/
def dumps (r : InRecord) : Option Blob :=
  if r.serializable then some (.valid r.fields) else none

/-- One row of the `epc_certificates` table (`database.py` lines 27-35). -/
structure Entry where
  certificate_id : String
  property_type : String
  data : Blob
  cached_at : Int
  last_accessed : Int

/-- One row of the `search_cache` table (`database.py` lines 37-45); only
the fields `cleanup_old_data` touches are carried. -/
structure SearchEntry where
  search_hash : String
  result_count : Int
  cached_at : Int
  last_accessed : Int

/-- The identity derivation of `database.py` line 69 — `lmk-key` with a
truthiness fallback to `building-reference-number`: the `lmk-key` value when truthy, otherwise the
`building-reference-number` value (possibly absent or falsy, in which
case line 71 skips the record). -/
def deriveId (fields : Record) : Option JVal :=
  let a := fields.get "lmk-key"
  if truthyOpt a then a else fields.get "building-reference-number"

/-- Binding the derived identity into the TEXT `certificate_id` column:
strings bind as themselves, integers and booleans via SQLite numeric
coercion to text; a `None` or a list cannot be bound (sqlite3 raises,
which line 87 catches, skipping the record). -/
def bindKey : JVal → Option String
  | .jstr s => some s
  | .jint n => some (toString n)
  | .jbool b => some (if b then "1" else "0")
  | .jnull => none
  | .jlist _ => none

/-- `INSERT OR REPLACE` keyed on the `certificate_id` primary key: any
existing row with the same key is deleted and the new row inserted. -/
def upsert (db : List Entry) (e : Entry) : List Entry :=
  db.filter (fun x => x.certificate_id != e.certificate_id) ++ [e]

/-- The body of the `store_certificates` row loop (`database.py` lines
67-89): derive the identity, skip the record when it is falsy or absent,
serialize the row and bind the key — any failure there is caught and the
record skipped — and otherwise upsert a fresh entry with `cached_at` and
`last_accessed` set to the current time. -/
def store_step (property_type : String) (now : Int) (acc : List Entry)
    (r : InRecord) : List Entry :=
  let cid := deriveId r.fields
  if truthyOpt cid then
    match cid with
    | some c =>
      match bindKey c, dumps r with
      | some key, some blob =>
        upsert acc
          { certificate_id := key
            property_type := property_type
            data := blob
            cached_at := now
            last_accessed := now }
      | _, _ => acc
    | none => acc
  else acc

/-- `store_certificates(data, property_type)` (`database.py` lines 59-93):
processes each row in order; an empty frame returns at once, which
coincides with folding over no rows. -/
def store_certificates (db : List Entry) (data : List InRecord)
    (property_type : String) (now : Int) : List Entry :=
  data.foldl (store_step property_type now) db

/-- SQL equality against possibly-NULL operands (`none`, or a bound
Python `None`): a comparison with NULL on either side never matches. -/
def sqlEq : Option JVal → Option JVal → Bool
  | some .jnull, _ => false
  | _, some .jnull => false
  | some a, some b => JVal.beq a b
  | _, _ => false

/-- `json_extract(data, k)` on the stored payload: the value of the field for
decodable JSON; NULL when the key is missing, its value is JSON null, or
the payload is not valid JSON. -/
def json_extract (b : Blob) (k : String) : Option JVal :=
  match b with
  | .valid doc =>
    match doc.get k with
    | some .jnull => none
    | v => v
  | .corrupt _ => none

/-- The optional filter clauses of `get_certificates` (`database.py`
lines 106-116): for each of `postcode`, `local-authority` and `uprn`
present in the filters dict, the extracted field must equal the supplied
value; other filter keys are ignored. -/
def matchesFilters (filters : Record) (b : Blob) : Bool :=
  (["postcode", "local-authority", "uprn"]).all (fun k =>
    match filters.get k with
    | none => true
    | some v => sqlEq (json_extract b k) (some v))

/-- `get_certificates(filters, property_type, max_age_hours)`
(`database.py` lines 95-135): rows whose `property_type` matches, whose
`cached_at` is strictly greater than `now - max_age_hours`, and which
satisfy every allow-listed filter; each surviving payload is decoded,
undecodable payloads being skipped. -/
def get_certificates (db : List Entry) (filters : Record)
    (property_type : String) (max_age_hours : Int) (now : Int) : List Record :=
  let cutoff := now - max_age_hours
  let results := db.filter (fun e =>
    e.property_type == property_type && decide (e.cached_at > cutoff) &&
      matchesFilters filters e.data)
  results.filterMap (fun e => loads e.data)

/-- `get_certificate_by_id(certificate_id, max_age_hours)` (`database.py`
lines 137-163): the first row with the given key and `cached_at` strictly
greater than `now - max_age_hours`; on a hit, every row with that key has
its `last_accessed` set to now before the payload is decoded, and an
undecodable payload yields an absent result. Returns the result together
with the table as the operation leaves it. -/
def get_certificate_by_id (db : List Entry) (certificate_id : String)
    (max_age_hours : Int) (now : Int) : Option Record × List Entry :=
  let cutoff := now - max_age_hours
  match db.find? (fun e =>
      e.certificate_id == certificate_id && decide (e.cached_at > cutoff)) with
  | none => (none, db)
  | some e =>
    let db2 := db.map (fun x =>
      if x.certificate_id == certificate_id
      then { x with last_accessed := now } else x)
    (loads e.data, db2)

/-- The two tables of the cache database. -/
structure DB where
  epc_certificates : List Entry
  search_cache : List SearchEntry

/-- `cleanup_old_data(max_age_days)` (`database.py` lines 165-186): from
each table, delete the rows whose `last_accessed` is strictly less than
`now - max_age_days`; the two `cursor.rowcount` values (the per-table
deletion counts, which the method logs) are returned alongside the new
state for inspection. -/
def cleanup_old_data (db : DB) (max_age_days : Int) (now : Int) :
    DB × Nat × Nat :=
  let cutoff := now - max_age_days * 24
  let keptC := db.epc_certificates.filter (fun e => !decide (e.last_accessed < cutoff))
  let deleted_count := db.epc_certificates.countP (fun e => decide (e.last_accessed < cutoff))
  let keptS := db.search_cache.filter (fun e => !decide (e.last_accessed < cutoff))
  let deleted_searches := db.search_cache.countP (fun e => decide (e.last_accessed < cutoff))
  (⟨keptC, keptS⟩, deleted_count, deleted_searches)

/-- The value `cleanup_old_data` returns to its caller: the method logs
the deletion counts but ends without a `return` statement, so the caller
receives Python `None`, never the counts. -/
def cleanup_old_data_result (_db : DB) (_max_age_days : Int) (_now : Int) :
    Option (Nat × Nat) :=
  none

end Database

section Claims

open Pagination Database

/-- C1: Response normalization produces the same record sequence whether the
response carries a direct record array under `data` or a columnar
`column-names` + `rows` encoding: each row is converted to one mapping by
zipping column names to row values in order (column-names `["a","b"]`,
rows `[[1,2]]` yields one record mapping `a` to 1 and `b` to 2), and a
response with neither shape normalizes to an empty record batch. -/
theorem normalize_response_equiv :
    (∀ (d : List Record) (cn : Option (List String))
        (rows : Option (List (List JVal))) (sa : Option JVal),
        Pagination.normalizeResponse ⟨some d, cn, rows, sa⟩ = d) ∧
    (∀ (columns : List String) (rows : List (List JVal)) (sa : Option JVal),
        Pagination.normalizeResponse ⟨none, some columns, some rows, sa⟩ =
          rows.map (fun row => List.zip columns row)) ∧
    (∀ (columns : List String) (rows : List (List JVal)) (sa sa2 : Option JVal),
        Pagination.normalizeResponse ⟨none, some columns, some rows, sa⟩ =
          Pagination.normalizeResponse
            ⟨some (rows.map (fun row => List.zip columns row)), none, none, sa2⟩) ∧
    (Pagination.normalizeResponse
        ⟨none, some ["a", "b"], some [[JVal.jint 1, JVal.jint 2]], none⟩ =
          [[("a", JVal.jint 1), ("b", JVal.jint 2)]]) ∧
    (∀ (cn : Option (List String)) (rows : Option (List (List JVal)))
        (sa : Option JVal), cn = none ∨ rows = none →
        Pagination.normalizeResponse ⟨none, cn, rows, sa⟩ = []) := by
  refine ⟨fun d cn rows sa => rfl, fun c r sa => rfl, fun c r sa sa2 => rfl, rfl, ?_⟩
  rintro cn rows sa (rfl | rfl)
  · cases rows <;> rfl
  · cases cn <;> rfl

/-- Witness for `normalize_response_equiv` at a concrete input: a response
with rows but no column names normalizes to the empty batch. -/
theorem normalize_response_equiv_witness :
    Pagination.normalizeResponse ⟨none, none, some [[JVal.jint 1]], none⟩ = [] :=
  normalize_response_equiv.2.2.2.2 none (some [[JVal.jint 1]]) none (Or.inl rfl)

/-- C4: A first response with an HTTP status other than 200 and other than
429 makes the fetch return failure after that single attempt — the
remaining session outcomes are untouched, no back-off sleep occurs — and
the status together with the response body is recorded for diagnostics. -/
theorem non_retryable_status_fails_fast :
    ∀ (status_code : Nat) (body : Pagination.ApiResponse) (text : String)
      (rest : List Pagination.AttemptOutcome),
      status_code ≠ 200 → status_code ≠ 429 →
      Pagination.make_request (.response status_code body text :: rest) =
        (none, [], [(status_code, text)]) := by
  intro sc body text rest h200 h429
  simp [Pagination.make_request, Pagination.make_request_loop,
    Pagination.RETRY_ATTEMPTS, h200, h429]

/-- Witness for `non_retryable_status_fails_fast`: a 404 fails at once with
its status and body logged, even though more outcomes were available. -/
theorem non_retryable_status_fails_fast_witness :
    Pagination.make_request
        (.response 404 ⟨none, none, none, none⟩ "not found" ::
          [.response 200 ⟨some [], none, none, none⟩ "ok"]) =
      (none, [], [(404, "not found")]) :=
  non_retryable_status_fails_fast 404 ⟨none, none, none, none⟩ "not found"
    [.response 200 ⟨some [], none, none, none⟩ "ok"] (by decide) (by decide)

/-- C3: When every attempt of a request is answered with HTTP 429, the
fetch sleeps `attempt_number * RETRY_DELAY` with a 1-based attempt count
(linear backoff), uses up the maximum attempt count of
`RETRY_ATTEMPTS = 3`, and then hands the caller the no-response sentinel
instead of raising. -/
theorem rate_limited_linear_backoff :
    Pagination.RETRY_ATTEMPTS = 3 ∧ Pagination.RETRY_DELAY = 1 ∧
    ∀ (outs : List Pagination.AttemptOutcome),
      outs.length = Pagination.RETRY_ATTEMPTS →
      (∀ o ∈ outs, ∃ body text, o = .response 429 body text) →
      Pagination.make_request outs =
        (none, [1 * Pagination.RETRY_DELAY, 2 * Pagination.RETRY_DELAY,
                3 * Pagination.RETRY_DELAY], []) := by
  refine ⟨rfl, rfl, ?_⟩
  intro outs hlen hall
  obtain ⟨a, b, c, rfl⟩ := List.length_eq_three.mp hlen
  obtain ⟨b1, t1, rfl⟩ := hall a (by simp)
  obtain ⟨b2, t2, rfl⟩ := hall b (by simp)
  obtain ⟨b3, t3, rfl⟩ := hall c (by simp)
  simp [Pagination.make_request, Pagination.make_request_loop,
    Pagination.RETRY_ATTEMPTS, Pagination.RETRY_DELAY]

/-- Witness for `rate_limited_linear_backoff`: three 429 responses produce
the sleep sequence 1, 2, 3 seconds and a failure result. -/
theorem rate_limited_linear_backoff_witness :
    Pagination.make_request
        [.response 429 ⟨none, none, none, none⟩ "slow down",
         .response 429 ⟨none, none, none, none⟩ "slow down",
         .response 429 ⟨none, none, none, none⟩ "slow down"] =
      (none, [1 * Pagination.RETRY_DELAY, 2 * Pagination.RETRY_DELAY,
              3 * Pagination.RETRY_DELAY], []) :=
  rate_limited_linear_backoff.2.2
    [.response 429 ⟨none, none, none, none⟩ "slow down",
     .response 429 ⟨none, none, none, none⟩ "slow down",
     .response 429 ⟨none, none, none, none⟩ "slow down"]
    rfl
    (by intro o ho
        simp only [List.mem_cons, List.mem_singleton] at ho
        rcases ho with rfl | rfl | rfl | h
        · exact ⟨_, _, rfl⟩
        · exact ⟨_, _, rfl⟩
        · exact ⟨_, _, rfl⟩
        · cases h)

/-- Each pagination cycle consumes one fetch outcome, so a session issues
at most one request more than the environment has answers for. -/
theorem paginateGo_requests_length_le (outcomes : List (Option Pagination.ApiResponse)) :
    ∀ (sa : Option JVal) (pc tot : Nat),
      ((Pagination.paginateGo outcomes sa pc tot).2).length ≤ outcomes.length + 1 := by
  induction outcomes with
  | nil => intro sa pc tot; simp [Pagination.paginateGo]
  | cons o rest ih =>
    intro sa pc tot
    cases o with
    | none => simp [Pagination.paginateGo]
    | some resp =>
      simp only [Pagination.paginateGo]
      split
      · simp
      · split
        · simpa using Nat.succ_le_succ (ih _ _ _)
        · simp [Nat.succ_le_succ]

/-- A run of responses with nonempty batches and truthy continuation
tokens, closed by a nonempty response without one, yields exactly one page
per response; whatever follows the closing response is never consumed. -/
theorem paginateGo_counts_pages (good : List Pagination.ApiResponse) :
    ∀ (lastR : Pagination.ApiResponse) (rest : List (Option Pagination.ApiResponse))
      (sa : Option JVal) (pc tot : Nat),
      (∀ r ∈ good, Pagination.normalizeResponse r ≠ [] ∧
          Pagination.saTruthy r.nextSearchAfter? = true) →
      Pagination.normalizeResponse lastR ≠ [] →
      Pagination.saTruthy lastR.nextSearchAfter? = false →
      ((Pagination.paginateGo (good.map some ++ some lastR :: rest) sa pc tot).1).length =
        good.length + 1 := by
  induction good with
  | nil =>
    intro lastR rest sa pc tot _ hnf hsf
    simp [Pagination.paginateGo, hnf, hsf]
  | cons r good ih =>
    intro lastR rest sa pc tot hg hnf hsf
    obtain ⟨hnr, hsr⟩ := hg r (by simp)
    have hrest : ∀ x ∈ good, Pagination.normalizeResponse x ≠ [] ∧
        Pagination.saTruthy x.nextSearchAfter? = true :=
      fun x hx => hg x (by simp [hx])
    have hnext := ih lastR rest r.nextSearchAfter? (pc + 1)
      (tot + (Pagination.normalizeResponse r).length) hrest hnf hsf
    simp [Pagination.paginateGo, hnr, hsr, hnext]

/-- C2: Pagination terminates after finitely many fetch cycles (at most
one more request than the environment can answer), checking the
termination conditions in order each cycle: a fetch failure stops the
session without raising and yields nothing further; an empty normalized
batch stops before yielding, so an empty first response yields zero
pages; a nonempty response without a truthy continuation cursor stops
after yielding its page, so when the Nth response omits the token exactly
N pages are yielded even though the Nth contains data. -/
theorem paginate_termination_order :
    (∀ outcomes : List (Option Pagination.ApiResponse),
        ((Pagination.paginate outcomes).2).length ≤ outcomes.length + 1) ∧
    (∀ (rest : List (Option Pagination.ApiResponse)) (sa : Option JVal) (pc tot : Nat),
        (Pagination.paginateGo (none :: rest) sa pc tot).1 = []) ∧
    (∀ (resp : Pagination.ApiResponse) (rest : List (Option Pagination.ApiResponse))
        (sa : Option JVal) (pc tot : Nat),
        Pagination.normalizeResponse resp = [] →
        (Pagination.paginateGo (some resp :: rest) sa pc tot).1 = []) ∧
    (∀ (resp : Pagination.ApiResponse) (rest : List (Option Pagination.ApiResponse))
        (sa : Option JVal) (pc tot : Nat),
        Pagination.normalizeResponse resp ≠ [] →
        Pagination.saTruthy resp.nextSearchAfter? = false →
        (Pagination.paginateGo (some resp :: rest) sa pc tot).1 =
          [{ data := Pagination.normalizeResponse resp, page := pc + 1,
             page_size := (Pagination.normalizeResponse resp).length,
             total_retrieved := tot + (Pagination.normalizeResponse resp).length }]) ∧
    (∀ (good : List Pagination.ApiResponse) (lastR : Pagination.ApiResponse)
        (rest : List (Option Pagination.ApiResponse)),
        (∀ r ∈ good, Pagination.normalizeResponse r ≠ [] ∧
            Pagination.saTruthy r.nextSearchAfter? = true) →
        Pagination.normalizeResponse lastR ≠ [] →
        Pagination.saTruthy lastR.nextSearchAfter? = false →
        ((Pagination.paginate (good.map some ++ some lastR :: rest)).1).length =
          good.length + 1) := by
  refine ⟨fun o => paginateGo_requests_length_le o none 0 0, ?_, ?_, ?_, ?_⟩
  · intro rest sa pc tot; simp [Pagination.paginateGo]
  · intro resp rest sa pc tot h; simp [Pagination.paginateGo, h]
  · intro resp rest sa pc tot hne hsa; simp [Pagination.paginateGo, hne, hsa]
  · intro good lastR rest hg hnf hsf
    exact paginateGo_counts_pages good lastR rest none 0 0 hg hnf hsf

/-- Witness for `paginate_termination_order`: a session whose second
response holds data but no continuation token yields exactly two pages. -/
theorem paginate_termination_order_witness :
    ((Pagination.paginate
        [some ⟨some [[("k", JVal.jint 1)]], none, none, some (JVal.jstr "T")⟩,
         some ⟨some [[("k", JVal.jint 2)]], none, none, none⟩]).1).length = 2 :=
  paginate_termination_order.2.2.2.2
    [⟨some [[("k", JVal.jint 1)]], none, none, some (JVal.jstr "T")⟩]
    ⟨some [[("k", JVal.jint 2)]], none, none, none⟩ []
    (by intro r hr
        simp only [List.mem_singleton] at hr
        subst hr
        exact ⟨by simp [Pagination.normalizeResponse], rfl⟩)
    (by simp [Pagination.normalizeResponse]) rfl

/-- C9: A `next-search-after` value that is present but falsy (empty
string, zero, empty list, or JSON null) ends the session after the
current page exactly as if the token were absent: the truthiness guard
would never place it in the request parameters, the session behaves
identically to one whose response lacks the token, and no request after
the current one is issued, so a falsy token is never sent upstream. -/
theorem falsy_continuation_token_ends_session :
    (∀ v : JVal, v.truthy = false → Pagination.sentToken (some v) = none) ∧
    (∀ (resp : Pagination.ApiResponse) (v : JVal)
        (rest : List (Option Pagination.ApiResponse)) (sa : Option JVal) (pc tot : Nat),
        resp.nextSearchAfter? = some v → v.truthy = false →
        Pagination.paginateGo (some resp :: rest) sa pc tot =
          Pagination.paginateGo
            (some { resp with nextSearchAfter? := none } :: rest) sa pc tot) ∧
    (∀ (resp : Pagination.ApiResponse) (v : JVal)
        (rest : List (Option Pagination.ApiResponse)) (sa : Option JVal) (pc tot : Nat),
        resp.nextSearchAfter? = some v → v.truthy = false →
        Pagination.normalizeResponse resp ≠ [] →
        Pagination.paginateGo (some resp :: rest) sa pc tot =
          ([{ data := Pagination.normalizeResponse resp, page := pc + 1,
              page_size := (Pagination.normalizeResponse resp).length,
              total_retrieved := tot + (Pagination.normalizeResponse resp).length }],
            [Pagination.sentToken sa])) := by
  refine ⟨?_, ?_, ?_⟩
  · intro v hv; simp [Pagination.sentToken, hv]
  · intro resp v rest sa pc tot hsa hv
    obtain ⟨d, cn, rws, sa0⟩ := resp
    simp only at hsa
    subst hsa
    simp only [Pagination.paginateGo, Pagination.normalizeResponse]
    split
    · rfl
    · simp [Pagination.saTruthy, hv]
  · intro resp v rest sa pc tot hsa hv hne
    simp [Pagination.paginateGo, hne, Pagination.saTruthy, hsa, hv]

/-- Witness for `falsy_continuation_token_ends_session`: an empty-string
token ends the session after one page and the following outcome is never
requested. -/
theorem falsy_continuation_token_ends_session_witness :
    Pagination.paginateGo
        [some ⟨some [[("k", JVal.jint 1)]], none, none, some (JVal.jstr "")⟩,
         some ⟨some [[("k", JVal.jint 9)]], none, none, none⟩] none 0 0 =
      ([{ data := [[("k", JVal.jint 1)]], page := 1, page_size := 1,
          total_retrieved := 0 + 1 }], [none]) :=
  falsy_continuation_token_ends_session.2.2
    ⟨some [[("k", JVal.jint 1)]], none, none, some (JVal.jstr "")⟩
    (JVal.jstr "") [some ⟨some [[("k", JVal.jint 9)]], none, none, none⟩]
    none 0 0 rfl rfl (by simp [Pagination.normalizeResponse])

/-- Storing a single well-formed record is one upsert with both
timestamps set to the store time. -/
theorem store_single_upsert (db : List Database.Entry) (r : Database.InRecord)
    (pt : String) (t : Int) (c : JVal) (key : String)
    (hc : Database.deriveId r.fields = some c) (ht : c.truthy = true)
    (hk : Database.bindKey c = some key) (hs : r.serializable = true) :
    Database.store_certificates db [r] pt t =
      Database.upsert db
        { certificate_id := key, property_type := pt,
          data := .valid r.fields, cached_at := t, last_accessed := t } := by
  simp [Database.store_certificates, Database.store_step, hc, ht, hk,
    truthyOpt, Database.dumps, hs]

/-- After an upsert, a point lookup predicate keyed on the upserted id and
satisfied by a fresh entry finds exactly the upserted entry. -/
theorem find?_fresh_upsert (db : List Database.Entry) (e : Database.Entry)
    (ma now : Int) (hfresh : e.cached_at > now - ma) :
    (Database.upsert db e).find?
        (fun x => x.certificate_id == e.certificate_id &&
          decide (x.cached_at > now - ma)) = some e := by
  rw [Database.upsert, List.find?_append]
  have h1 : (db.filter (fun x => x.certificate_id != e.certificate_id)).find?
      (fun x => x.certificate_id == e.certificate_id &&
        decide (x.cached_at > now - ma)) = none := by
    rw [List.find?_eq_none]
    intro x hx
    rcases List.mem_filter.mp hx with ⟨-, hne⟩
    simp only [Bool.and_eq_true, beq_iff_eq, not_and]
    intro h _
    exact (bne_iff_ne.mp hne) h
  rw [h1]
  have hpe : (e.certificate_id == e.certificate_id &&
      decide (e.cached_at > now - ma)) = true := by simp [hfresh]
  have h2 : List.find? (fun x => x.certificate_id == e.certificate_id &&
      decide (x.cached_at > now - ma)) [e] = some e := by
    unfold List.find?
    rw [hpe]
  rw [h2]
  rfl

/-- A point lookup right after an upsert of a fresh entry decodes that
payload of that entry. -/
theorem get_by_id_upsert (db : List Database.Entry) (e : Database.Entry)
    (ma now : Int) (hfresh : e.cached_at > now - ma) :
    (Database.get_certificate_by_id (Database.upsert db e)
        e.certificate_id ma now).1 = Database.loads e.data := by
  simp only [Database.get_certificate_by_id]
  rw [find?_fresh_upsert db e ma now hfresh]

/-- Every entry of an upserted table carrying the upserted key is the
upserted entry itself. -/
theorem upsert_mem_key (db : List Database.Entry) (e x : Database.Entry)
    (hx : x ∈ Database.upsert db e) (hk : x.certificate_id = e.certificate_id) :
    x = e := by
  rcases List.mem_append.mp hx with h | h
  · rcases List.mem_filter.mp h with ⟨-, hne⟩
    exact absurd hk (bne_iff_ne.mp hne)
  · simpa using h

/-- After an upsert, the upserted key indexes exactly one row. -/
theorem upsert_filter_key (db : List Database.Entry) (e : Database.Entry) :
    (Database.upsert db e).filter
        (fun x => x.certificate_id == e.certificate_id) = [e] := by
  rw [Database.upsert, List.filter_append, List.filter_filter]
  have h1 : db.filter (fun x => x.certificate_id == e.certificate_id &&
      x.certificate_id != e.certificate_id) = [] := by
    rw [List.filter_eq_nil_iff]
    intro a _
    simp only [Bool.and_eq_true, beq_iff_eq, bne_iff_ne, ne_eq, not_and]
    intro h h2
    exact h2 h
  rw [h1]
  simp

/-- C5: Storing a record and then reading it back by id within the
freshness window returns exactly the payload last stored for that id:
after two stores of different payloads under the same identity, the point
lookup returns only the second payload, every row under that id carries
the `cached_at` and payload of the second store (insert-or-fully-replace,
last-write-wins), and the id indexes exactly one row
(`certificate_id` unique). -/
theorem store_last_write_wins
    (db : List Database.Entry) (r1 r2 : Database.InRecord) (pt1 pt2 : String)
    (c1 c2 : JVal) (key : String) (t1 t2 now ma : Int)
    (db2 : List Database.Entry)
    (h1 : Database.deriveId r1.fields = some c1) (h1t : c1.truthy = true)
    (h1k : Database.bindKey c1 = some key) (h1s : r1.serializable = true)
    (h2 : Database.deriveId r2.fields = some c2) (h2t : c2.truthy = true)
    (h2k : Database.bindKey c2 = some key) (h2s : r2.serializable = true)
    (hfresh : t2 > now - ma)
    (hdb2 : db2 = Database.store_certificates
        (Database.store_certificates db [r1] pt1 t1) [r2] pt2 t2) :
    (Database.get_certificate_by_id db2 key ma now).1 = some r2.fields ∧
    (∀ e ∈ db2, e.certificate_id = key →
        e.cached_at = t2 ∧ e.data = Database.Blob.valid r2.fields ∧
          e.property_type = pt2) ∧
    db2.filter (fun x => x.certificate_id == key) =
      [{ certificate_id := key, property_type := pt2,
         data := Database.Blob.valid r2.fields, cached_at := t2,
         last_accessed := t2 }] := by
  subst hdb2
  rw [store_single_upsert db r1 pt1 t1 c1 key h1 h1t h1k h1s,
      store_single_upsert _ r2 pt2 t2 c2 key h2 h2t h2k h2s]
  refine ⟨?_, ?_, ?_⟩
  · exact get_by_id_upsert _
      ⟨key, pt2, Database.Blob.valid r2.fields, t2, t2⟩ ma now hfresh
  · intro e he hk
    have he2 := upsert_mem_key _ ⟨key, pt2, Database.Blob.valid r2.fields, t2, t2⟩ e he hk
    subst he2
    exact ⟨rfl, rfl, rfl⟩
  · exact upsert_filter_key _ ⟨key, pt2, Database.Blob.valid r2.fields, t2, t2⟩

/-- Witness for `store_last_write_wins`: two stores under the key K, then
a lookup at a later time inside the window returns the second payload. -/
theorem store_last_write_wins_witness :
    (Database.get_certificate_by_id
        (Database.store_certificates
          (Database.store_certificates []
            [⟨[("lmk-key", JVal.jstr "K")], true⟩] "domestic" 1)
          [⟨[("lmk-key", JVal.jstr "K"), ("rating", JVal.jstr "B")], true⟩]
          "domestic" 5)
        "K" 24 6).1 =
      some [("lmk-key", JVal.jstr "K"), ("rating", JVal.jstr "B")] :=
  (store_last_write_wins [] ⟨[("lmk-key", JVal.jstr "K")], true⟩
      ⟨[("lmk-key", JVal.jstr "K"), ("rating", JVal.jstr "B")], true⟩
      "domestic" "domestic" (JVal.jstr "K") (JVal.jstr "K") "K" 1 5 6 24 _
      rfl rfl rfl rfl rfl rfl rfl rfl (by decide) rfl).1

/-- C6: Freshness-bounded reads return an entry only when its `cached_at`
is strictly greater than `now - max_age_hours`: every record a bulk or
point read returns comes from a strictly-fresh entry, a boundary or older
entry (`cached_at ≤ now - max_age_hours`, so in particular any entry
stored strictly in the past read with `max_age_hours = 0`) is never
returned, and reads are unaffected by arbitrary rewrites of
`last_accessed` — they never filter on it. -/
theorem freshness_window_strict :
    (∀ (db : List Database.Entry) (filters : Record) (pt : String)
        (ma now : Int) (d : Record),
        d ∈ Database.get_certificates db filters pt ma now →
        ∃ e ∈ db, e.property_type = pt ∧ e.cached_at > now - ma ∧
          Database.loads e.data = some d) ∧
    (∀ (db : List Database.Entry) (key : String) (ma now : Int),
        ((Database.get_certificate_by_id db key ma now).1).isSome = true →
        ∃ e ∈ db, e.certificate_id = key ∧ e.cached_at > now - ma) ∧
    (∀ (db : List Database.Entry) (filters : Record) (pt : String) (now : Int),
        (∀ e ∈ db, e.cached_at < now) →
        Database.get_certificates db filters pt 0 now = []) ∧
    (∀ (db : List Database.Entry) (key : String) (ma now : Int),
        (∀ e ∈ db, e.cached_at ≤ now - ma) →
        Database.get_certificate_by_id db key ma now = (none, db)) ∧
    (∀ (db : List Database.Entry) (touch : Database.Entry → Int)
        (filters : Record) (pt : String) (ma now : Int),
        Database.get_certificates
            (db.map (fun e => { e with last_accessed := touch e }))
            filters pt ma now =
          Database.get_certificates db filters pt ma now) ∧
    (∀ (db : List Database.Entry) (touch : Database.Entry → Int)
        (key : String) (ma now : Int),
        ((Database.get_certificate_by_id
            (db.map (fun e => { e with last_accessed := touch e }))
            key ma now).1) =
          (Database.get_certificate_by_id db key ma now).1) := by
  have hsound : ∀ (db : List Database.Entry) (filters : Record) (pt : String)
      (ma now : Int) (d : Record),
      d ∈ Database.get_certificates db filters pt ma now →
      ∃ e ∈ db, e.property_type = pt ∧ e.cached_at > now - ma ∧
        Database.loads e.data = some d := by
    intro db filters pt ma now d hd
    simp only [Database.get_certificates, List.mem_filterMap] at hd
    obtain ⟨e, he, hload⟩ := hd
    rcases List.mem_filter.mp he with ⟨hmem, hp⟩
    simp only [Bool.and_eq_true, beq_iff_eq, decide_eq_true_eq] at hp
    exact ⟨e, hmem, hp.1.1, hp.1.2, hload⟩
  refine ⟨hsound, ?_, ?_, ?_, ?_, ?_⟩
  · intro db key ma now hsome
    simp only [Database.get_certificate_by_id] at hsome
    cases hfind : db.find? (fun e => e.certificate_id == key &&
        decide (e.cached_at > now - ma)) with
    | none => rw [hfind] at hsome; simp at hsome
    | some e =>
      have hmem := List.mem_of_find?_eq_some hfind
      have hp := List.find?_some hfind
      simp only [Bool.and_eq_true, beq_iff_eq, decide_eq_true_eq] at hp
      exact ⟨e, hmem, hp.1, hp.2⟩
  · intro db filters pt now hold
    rw [List.eq_nil_iff_forall_not_mem]
    intro d hd
    obtain ⟨e, hmem, -, hfresh, -⟩ := hsound db filters pt 0 now d hd
    have := hold e hmem
    omega
  · intro db key ma now hold
    simp only [Database.get_certificate_by_id]
    have hnone : db.find? (fun e => e.certificate_id == key &&
        decide (e.cached_at > now - ma)) = none := by
      rw [List.find?_eq_none]
      intro e he
      simp only [Bool.and_eq_true, beq_iff_eq, decide_eq_true_eq, not_and]
      intro _ h
      have := hold e he
      omega
    rw [hnone]
  · intro db touch filters pt ma now
    simp only [Database.get_certificates, List.filter_map, List.filterMap_map]
    rfl
  · intro db touch key ma now
    simp only [Database.get_certificate_by_id, List.find?_map]
    have hcomp : ((fun e : Database.Entry => e.certificate_id == key &&
        decide (e.cached_at > now - ma)) ∘
          (fun e : Database.Entry => { e with last_accessed := touch e })) =
        (fun e : Database.Entry => e.certificate_id == key &&
          decide (e.cached_at > now - ma)) := rfl
    rw [hcomp]
    cases hfind : db.find? (fun e => e.certificate_id == key &&
        decide (e.cached_at > now - ma)) with
    | none => rfl
    | some e => rfl

/-- Witness for `freshness_window_strict`: a point lookup with a zero
freshness window against an entry stored one hour in the past misses and
leaves the table unchanged. -/
theorem freshness_window_strict_witness :
    Database.get_certificate_by_id
        [{ certificate_id := "K", property_type := "domestic",
           data := Database.Blob.valid [], cached_at := 4, last_accessed := 4 }]
        "K" 0 5 =
      (none,
        [{ certificate_id := "K", property_type := "domestic",
           data := Database.Blob.valid [], cached_at := 4, last_accessed := 4 }]) :=
  freshness_window_strict.2.2.2.1
    [{ certificate_id := "K", property_type := "domestic",
       data := Database.Blob.valid [], cached_at := 4, last_accessed := 4 }]
    "K" 0 5
    (by intro e he
        rcases List.mem_singleton.mp he with rfl
        decide)

/-- Counting the matches of a predicate and keeping the rest partitions a
list. -/
theorem countP_add_length_filter_not {α : Type} (p : α → Bool) (l : List α) :
    l.countP p + (l.filter (fun a => !p a)).length = l.length := by
  induction l with
  | nil => simp
  | cons a l ih =>
    by_cases h : p a
    · simp only [List.countP_cons, List.filter_cons, h]
      simp
      omega
    · simp only [List.countP_cons, List.filter_cons, h]
      simp [h]
      omega

/-- C7 fails as stated: `cleanup_old_data` computes and logs the two
per-category deletion counts, but the method body ends without a `return`
statement, so its Python return value is `None` — here, at a state whose
single certificate entry is stale enough to be deleted, the deletion
count is 1 yet the caller receives `None`, not the counts. -/
theorem cleanup_counts_not_returned :
    Database.cleanup_old_data_result
        ⟨[{ certificate_id := "K", property_type := "domestic",
            data := Database.Blob.valid [], cached_at := 0, last_accessed := 0 }],
          []⟩ 30 10000 = none ∧
    (Database.cleanup_old_data
        ⟨[{ certificate_id := "K", property_type := "domestic",
            data := Database.Blob.valid [], cached_at := 0, last_accessed := 0 }],
          []⟩ 30 10000).2.1 = 1 ∧
    Database.cleanup_old_data_result
        ⟨[{ certificate_id := "K", property_type := "domestic",
            data := Database.Blob.valid [], cached_at := 0, last_accessed := 0 }],
          []⟩ 30 10000 ≠
      some ((Database.cleanup_old_data
          ⟨[{ certificate_id := "K", property_type := "domestic",
              data := Database.Blob.valid [], cached_at := 0, last_accessed := 0 }],
            []⟩ 30 10000).2.1,
        (Database.cleanup_old_data
          ⟨[{ certificate_id := "K", property_type := "domestic",
              data := Database.Blob.valid [], cached_at := 0, last_accessed := 0 }],
            []⟩ 30 10000).2.2) := by
  refine ⟨rfl, by decide, ?_⟩
  simp [Database.cleanup_old_data_result]

/-- C7 (amended): `cleanup_old_data(max_age_days)` deletes exactly the
certificate and search-level cache entries whose `last_accessed` is
strictly before `now - max_age_days` (independent of `cached_at`),
retains all others, and computes and logs — but does not return — the
per-category deletion counts, which together with the retained rows
account for every row; running it twice in a row is idempotent: the
second run returns the same state and deletes zero entries in each
category. -/
theorem cleanup_eviction_spec (db : Database.DB) (d now : Int) :
    (∀ e : Database.Entry,
        e ∈ (Database.cleanup_old_data db d now).1.epc_certificates ↔
          e ∈ db.epc_certificates ∧ ¬(e.last_accessed < now - d * 24)) ∧
    (∀ s : Database.SearchEntry,
        s ∈ (Database.cleanup_old_data db d now).1.search_cache ↔
          s ∈ db.search_cache ∧ ¬(s.last_accessed < now - d * 24)) ∧
    ((Database.cleanup_old_data db d now).2.1 +
        (Database.cleanup_old_data db d now).1.epc_certificates.length =
      db.epc_certificates.length) ∧
    ((Database.cleanup_old_data db d now).2.2 +
        (Database.cleanup_old_data db d now).1.search_cache.length =
      db.search_cache.length) ∧
    Database.cleanup_old_data (Database.cleanup_old_data db d now).1 d now =
      ((Database.cleanup_old_data db d now).1, 0, 0) := by
  refine ⟨?_, ?_, ?_, ?_, ?_⟩
  · intro e
    simp [Database.cleanup_old_data, List.mem_filter]
  · intro s
    simp [Database.cleanup_old_data, List.mem_filter]
  · exact countP_add_length_filter_not
      (fun e : Database.Entry => decide (e.last_accessed < now - d * 24))
      db.epc_certificates
  · exact countP_add_length_filter_not
      (fun s : Database.SearchEntry => decide (s.last_accessed < now - d * 24))
      db.search_cache
  · simp only [Database.cleanup_old_data, List.filter_filter, Prod.mk.injEq,
      Database.DB.mk.injEq]
    refine ⟨⟨?_, ?_⟩, ?_, ?_⟩
    · exact List.filter_congr (fun x _ => by simp)
    · exact List.filter_congr (fun x _ => by simp)
    · rw [List.countP_eq_zero]
      intro a ha
      rcases List.mem_filter.mp ha with ⟨-, hkeep⟩
      simpa using hkeep
    · rw [List.countP_eq_zero]
      intro a ha
      rcases List.mem_filter.mp ha with ⟨-, hkeep⟩
      simpa using hkeep

/-- Witness for `cleanup_eviction_spec`: a two-entry state at day
boundary 30 keeps the entry accessed at the cutoff instant, deletes the
older one, and a second run changes nothing. -/
theorem cleanup_eviction_spec_witness :
    ((Database.cleanup_old_data
        ⟨[{ certificate_id := "A", property_type := "domestic",
            data := Database.Blob.valid [], cached_at := 0, last_accessed := 0 },
          { certificate_id := "B", property_type := "domestic",
            data := Database.Blob.valid [], cached_at := 0, last_accessed := 280 }],
          []⟩ 30 1000).2.1 +
      (Database.cleanup_old_data
        ⟨[{ certificate_id := "A", property_type := "domestic",
            data := Database.Blob.valid [], cached_at := 0, last_accessed := 0 },
          { certificate_id := "B", property_type := "domestic",
            data := Database.Blob.valid [], cached_at := 0, last_accessed := 280 }],
          []⟩ 30 1000).1.epc_certificates.length) = 2 :=
  (cleanup_eviction_spec
    ⟨[{ certificate_id := "A", property_type := "domestic",
        data := Database.Blob.valid [], cached_at := 0, last_accessed := 0 },
      { certificate_id := "B", property_type := "domestic",
        data := Database.Blob.valid [], cached_at := 0, last_accessed := 280 }],
      []⟩ 30 1000).2.2.1

/-- One malformed row leaves the accumulated table untouched: a falsy or
absent identity is skipped by the guard, and a serialization failure is
caught and skipped. -/
theorem store_step_skip_malformed (pt : String) (t : Int)
    (acc : List Database.Entry) (bad : Database.InRecord) :
    (truthyOpt (Database.deriveId bad.fields) = false →
      Database.store_step pt t acc bad = acc) ∧
    (bad.serializable = false →
      Database.store_step pt t acc bad = acc) := by
  constructor
  · intro h
    simp [Database.store_step, h]
  · intro h
    simp only [Database.store_step, Database.dumps, h]
    cases hcid : Database.deriveId bad.fields with
    | none => rfl
    | some c =>
      cases hbk : Database.bindKey c with
      | none => simp
      | some key => simp

/-- C8: `store_certificates` silently skips a record lacking a truthy
identity under both `lmk-key` and `building-reference-number`, and skips
a record whose storage fails (a non-serializable value), in both cases
without raising and without aborting the batch: the store of the batch
with the malformed record equals the store of the batch without it, so
every other record is still upserted. -/
theorem store_skips_malformed (db : List Database.Entry)
    (rs1 rs2 : List Database.InRecord) (bad : Database.InRecord)
    (pt : String) (t : Int) :
    (truthyOpt (Database.deriveId bad.fields) = false →
      Database.store_certificates db (rs1 ++ bad :: rs2) pt t =
        Database.store_certificates db (rs1 ++ rs2) pt t) ∧
    (bad.serializable = false →
      Database.store_certificates db (rs1 ++ bad :: rs2) pt t =
        Database.store_certificates db (rs1 ++ rs2) pt t) := by
  constructor
  · intro h
    simp only [Database.store_certificates, List.foldl_append, List.foldl_cons,
      (store_step_skip_malformed pt t _ bad).1 h]
  · intro h
    simp only [Database.store_certificates, List.foldl_append, List.foldl_cons,
      (store_step_skip_malformed pt t _ bad).2 h]

/-- Witness for `store_skips_malformed`: a batch whose middle record has
no identity fields stores the same entries as the batch without it. -/
theorem store_skips_malformed_witness :
    Database.store_certificates []
        [⟨[("lmk-key", JVal.jstr "A")], true⟩,
         ⟨[("other", JVal.jstr "x")], true⟩,
         ⟨[("lmk-key", JVal.jstr "B")], true⟩] "domestic" 7 =
      Database.store_certificates []
        [⟨[("lmk-key", JVal.jstr "A")], true⟩,
         ⟨[("lmk-key", JVal.jstr "B")], true⟩] "domestic" 7 :=
  (store_skips_malformed [] [⟨[("lmk-key", JVal.jstr "A")], true⟩]
      [⟨[("lmk-key", JVal.jstr "B")], true⟩]
      ⟨[("other", JVal.jstr "x")], true⟩ "domestic" 7).1 rfl

/-- C10: When the first row matching `certificate_id` inside the
freshness window holds an undecodable payload, `get_certificate_by_id`
returns absent — yet the table it leaves behind has `last_accessed` set
to now on the rows under that key, because the touch is committed before
the decode is attempted: an absent result does not imply the cache state
was left unchanged, and eviction of the undecodable entry is deferred. -/
theorem corrupt_payload_read_touches (db : List Database.Entry)
    (key : String) (ma now : Int) (e : Database.Entry) (s : String)
    (hfind : db.find? (fun x => x.certificate_id == key &&
        decide (x.cached_at > now - ma)) = some e)
    (hcorrupt : e.data = Database.Blob.corrupt s) :
    (Database.get_certificate_by_id db key ma now).1 = none ∧
    (Database.get_certificate_by_id db key ma now).2 =
      db.map (fun x => if x.certificate_id == key
        then { x with last_accessed := now } else x) := by
  simp only [Database.get_certificate_by_id]
  rw [hfind]
  refine ⟨?_, rfl⟩
  show Database.loads e.data = none
  rw [hcorrupt]
  rfl

/-- Witness for `corrupt_payload_read_touches`: a fresh entry with an
undecodable payload reads back as absent while its `last_accessed` moves
to the read time. -/
theorem corrupt_payload_read_touches_witness :
    (Database.get_certificate_by_id
        [{ certificate_id := "K", property_type := "domestic",
           data := Database.Blob.corrupt "oops", cached_at := 5,
           last_accessed := 0 }] "K" 24 6).1 = none ∧
    (Database.get_certificate_by_id
        [{ certificate_id := "K", property_type := "domestic",
           data := Database.Blob.corrupt "oops", cached_at := 5,
           last_accessed := 0 }] "K" 24 6).2 =
      [{ certificate_id := "K", property_type := "domestic",
         data := Database.Blob.corrupt "oops", cached_at := 5,
         last_accessed := 6 }] :=
  ⟨(corrupt_payload_read_touches
      [{ certificate_id := "K", property_type := "domestic",
         data := Database.Blob.corrupt "oops", cached_at := 5,
         last_accessed := 0 }] "K" 24 6
      { certificate_id := "K", property_type := "domestic",
        data := Database.Blob.corrupt "oops", cached_at := 5,
        last_accessed := 0 } "oops" rfl rfl).1,
   (corrupt_payload_read_touches
      [{ certificate_id := "K", property_type := "domestic",
         data := Database.Blob.corrupt "oops", cached_at := 5,
         last_accessed := 0 }] "K" 24 6
      { certificate_id := "K", property_type := "domestic",
        data := Database.Blob.corrupt "oops", cached_at := 5,
        last_accessed := 0 } "oops" rfl rfl).2⟩

end Claims
